import Mathlib

/-!
Verification development for the `elliottech/lighter-go` C++ WebSocket examples
(`examples/cpp/trade_stream.cpp` and `examples/cpp/websocket_example.cpp`).

The two programs are single-threaded clients: a blocking read loop receives one
text frame at a time, parses it with nlohmann::json, and dispatches on the
`type` (and fallback `channel`) string field, printing lines to the console and
writing the occasional frame (`pong`) back.  We embed this message-handling
layer shallowly:

* `Json` models a parsed nlohmann::json value.
* `valueStr` / `valueJson` model `basic_json::value(key, default)`: the default
  is returned only when the key is absent; a present field of the wrong type
  throws `type_error.302`, and calling `value` on a non-object throws
  `type_error.306`.  Thrown errors are modelled as `Except.error`.
* Each console line / outbound frame becomes one `Out` action carrying the data
  that the corresponding `std::cout` / `ws_.write` statement prints.  Handlers
  return `List Out × Option JErr`: the outputs produced before a possible
  escaping json exception (C++ streams are not transactional, so output emitted
  before a throw stays emitted).
* `handle_message` wraps dispatch in the `catch (const json::exception&)` block
  of the source: an escaping json error becomes a trailing `Out.parseError`
  line ("JSON parse error: ...") and the function returns normally.
* `run` folds the loop body over the list of frames delivered by the transport.
  Transport-level reads/writes are assumed to succeed; a transport error or
  close frame ends the stream of delivered frames, which the list model
  captures by the list simply ending.
-/

/-- JErr models an escaping `nlohmann::json::exception`: either a parse error
from `json::parse` or a `type_error` (302/305/306) from `value`/`operator[]`. -/
inductive JErr where
  | parseErr
  | typeErr
deriving DecidableEq, Repr

/-- Json models a parsed nlohmann::json value. -/
inductive Json where
  | null
  | bool (b : Bool)
  | num (n : Int)
  | str (s : String)
  | arr (elems : List Json)
  | obj (fields : List (String × Json))

/-- getField models `find` on an nlohmann object: the value stored at a key. -/
def getField : List (String × Json) → String → Option Json
  | [], _ => none
  | (k, v) :: rest, key => if k = key then some v else getField rest key

/-- valueStr models `j.value(key, default)` with a string default: returns the
default only when the key is absent; throws `type_error.302` when the field is
present but not a string, `type_error.306` when `j` is not an object. -/
def valueStr (j : Json) (key dflt : String) : Except JErr String :=
  match j with
  | .obj fs =>
    match getField fs key with
    | none => .ok dflt
    | some (.str s) => .ok s
    | some _ => .error .typeErr
  | _ => .error .typeErr

/-- valueJson models `j.value(key, json_default)`: any present field is
returned as-is (`get<basic_json>` never fails); throws `type_error.306` when
`j` is not an object. -/
def valueJson (j : Json) (key : String) (dflt : Json) : Except JErr Json :=
  match j with
  | .obj fs =>
    match getField fs key with
    | none => .ok dflt
    | some v => .ok v
  | _ => .error .typeErr

/-- jsize models nlohmann `size()`: 0 for null, container length for
arrays/objects, 1 for the other primitives. -/
def Json.jsize : Json → Nat
  | .null => 0
  | .arr xs => xs.length
  | .obj fs => fs.length
  | _ => 1

/-- jempty models nlohmann `empty()`: true exactly when `size() == 0`. -/
def Json.jempty (j : Json) : Bool := j.jsize == 0

/-- atIdx models the const `operator[](size_type)`: element access on an array
(`type_error.305` on other types; out-of-range access never occurs in the
sources because it is guarded by `empty()` checks, modelled as an error). -/
def Json.atIdx : Json → Nat → Except JErr Json
  | .arr xs, i =>
    match xs.get? i with
    | some v => .ok v
    | none => .error .typeErr
  | _, _ => .error .typeErr

/-- Out is one observable action of a handler: one printed console line or one
outbound WebSocket frame, tagged with the data the source statement prints. -/
inductive Out where
  | info (s : String)
  | frame (s : String)
  | tradeLine (side price size : String)
  | tradeHeader
  | tradeSnapshotSummary (n : Nat)
  | obSummary (bids asks : Nat)
  | obBest (bidSize bidPrice askSize askPrice : String)
  | obUpdateSummary (bids asks : Nat)
  | marketStats (last mark vol : String)
  | errorWarn (msg : String)
  | unknownType (t : String)
  | parseError
deriving DecidableEq, Repr

/-- Frame is one text frame delivered by the transport, already put through
`json::parse`: either malformed (parse throws) or a parsed `Json` value. -/
inductive Frame where
  | malformed
  | ok (j : Json)

/-- strHasPrefix models `s.find(p) == 0` on a `std::string`: the pattern
occurs at position 0, i.e. it is a prefix. -/
def strHasPrefix (p s : String) : Bool := p.data.isPrefixOf s.data

/-- pongFrame is `json{{"type","pong"}}.dump()`, the frame written in answer
to a ping. -/
def pongFrame : String := "\x7b\"type\":\"pong\"\x7d"

namespace TradeStream

/-- print_trade embeds `TradeStreamClient::print_trade`: extracts `side`
(default "unknown"), `price` (default "0"), `size` (default "0") in source
order, then prints one colored line. -/
def print_trade (trade : Json) : List Out × Option JErr :=
  match valueStr trade "side" "unknown" with
  | .error e => ([], some e)
  | .ok side =>
  match valueStr trade "price" "0" with
  | .error e => ([], some e)
  | .ok price =>
  match valueStr trade "size" "0" with
  | .error e => ([], some e)
  | .ok size => ([Out.tradeLine side price size], none)

/-- printTrades embeds the `for (const auto& trade : data)` loops: trades are
printed left to right; an escaping exception stops the loop, keeping the
output already produced. -/
def printTrades : List Json → List Out × Option JErr
  | [] => ([], none)
  | t :: ts =>
    match print_trade t with
    | (os, some e) => (os, some e)
    | (os, none) =>
      match printTrades ts with
      | (os2, e2) => (os ++ os2, e2)

/-- handle_trade_snapshot embeds `TradeStreamClient::handle_trade_snapshot`:
only an array `data` is printed (summary line, header, then the trades);
any other `data` shape prints nothing. -/
def handle_trade_snapshot (j : Json) : List Out × Option JErr :=
  match valueJson j "data" (Json.obj []) with
  | .error e => ([], some e)
  | .ok data =>
    match data with
    | .arr ts =>
      match printTrades ts with
      | (os, e) => (Out.tradeSnapshotSummary ts.length :: Out.tradeHeader :: os, e)
    | _ => ([], none)

/-- handle_trade_update embeds `TradeStreamClient::handle_trade_update`: an
array `data` prints each element, an object `data` prints the single trade,
anything else prints nothing. -/
def handle_trade_update (j : Json) : List Out × Option JErr :=
  match valueJson j "data" (Json.obj []) with
  | .error e => ([], some e)
  | .ok data =>
    match data with
    | .arr ts => printTrades ts
    | .obj fs => print_trade (.obj fs)
    | _ => ([], none)

/-- handle_error embeds the `type == "error"` branch: prints
`data.value("message", "Unknown error")` to stderr. -/
def handle_error (j : Json) : List Out × Option JErr :=
  match valueJson j "data" (Json.obj []) with
  | .error e => ([], some e)
  | .ok data =>
    match valueStr data "message" "Unknown error" with
    | .error e => ([], some e)
    | .ok m => ([Out.errorWarn m], none)

/-- dispatch embeds the body of `TradeStreamClient::handle_message` after a
successful parse: extract `type` and `channel` (empty-string defaults), then
run the if-chain in source order. -/
def dispatch (j : Json) : List Out × Option JErr :=
  match valueStr j "type" "" with
  | .error e => ([], some e)
  | .ok ty =>
  match valueStr j "channel" "" with
  | .error e => ([], some e)
  | .ok channel =>
  if ty = "connected" then ([Out.info "Received connected message"], none)
  else if ty = "ping" then ([Out.frame pongFrame], none)
  else if ty = "subscribed/trade" ∨ strHasPrefix "trade" channel then handle_trade_snapshot j
  else if ty = "update/trade" then handle_trade_update j
  else if ty = "error" then handle_error j
  else ([], none)

/-- handle_message embeds `TradeStreamClient::handle_message` including its
`catch (const json::exception&)`: a malformed frame or an escaping json error
produces the "JSON parse error" line and the function returns normally. -/
def handle_message : Frame → List Out
  | .malformed => [Out.parseError]
  | .ok j =>
    match dispatch j with
    | (os, none) => os
    | (os, some _) => os ++ [Out.parseError]

/-- run embeds the read loop of `TradeStreamClient::run` over the frames the
transport delivers: each frame is handled in turn and the loop continues. -/
def run : List Frame → List Out
  | [] => []
  | f :: fs => handle_message f ++ run fs

/-- subscribe_trades_channel is the channel string built by
`TradeStreamClient::subscribe_trades`: `"trade/" + std::to_string(i)`. -/
def subscribe_trades_channel (marketIndex : Int) : String :=
  "trade/" ++ toString marketIndex

/-- mainMarketIndex embeds the market-index selection in `main` of
trade_stream.cpp: `int market_index = 0;` is never reassigned and `argv` is
never read, so the result ignores the argument vector. -/
def mainMarketIndex (_argv : List String) : Int := 0

/-- mainChannel is the channel `main` subscribes to:
`subscribe_trades(market_index)` with the hard-coded index. -/
def mainChannel (argv : List String) : String :=
  subscribe_trades_channel (mainMarketIndex argv)

end TradeStream

namespace WebSocketExample

/-- printOneTrade embeds one iteration of the printing in
`LighterWebSocket::handle_trade`: the `std::cout` chain evaluates
`trade.value("size","0")`, then `"price"`, then `"side"` left to right
(C++17 sequencing) and prints one "Trade: size @ price (side)" line. -/
def printOneTrade (trade : Json) : List Out × Option JErr :=
  match valueStr trade "size" "0" with
  | .error e => ([], some e)
  | .ok size =>
  match valueStr trade "price" "0" with
  | .error e => ([], some e)
  | .ok price =>
  match valueStr trade "side" "unknown" with
  | .error e => ([], some e)
  | .ok side => ([Out.tradeLine side price size], none)

/-- printTrades embeds the `for (const auto& trade : data)` loop of
`LighterWebSocket::handle_trade`. -/
def printTrades : List Json → List Out × Option JErr
  | [] => ([], none)
  | t :: ts =>
    match printOneTrade t with
    | (os, some e) => (os, some e)
    | (os, none) =>
      match printTrades ts with
      | (os2, e2) => (os ++ os2, e2)

/-- handle_trade embeds `LighterWebSocket::handle_trade`: an array `data`
prints each element, an object `data` prints the single trade, anything else
prints nothing. -/
def handle_trade (j : Json) : List Out × Option JErr :=
  match valueJson j "data" (Json.obj []) with
  | .error e => ([], some e)
  | .ok data =>
    match data with
    | .arr ts => printTrades ts
    | .obj fs => printOneTrade (.obj fs)
    | _ => ([], none)

/-- handle_orderbook embeds `LighterWebSocket::handle_orderbook`: prints the
snapshot summary with `bids.size()`/`asks.size()`, then — when both are
non-empty — one best-bid/best-ask line whose four `value` extractions are
evaluated left to right. -/
def handle_orderbook (j : Json) : List Out × Option JErr :=
  match valueJson j "order_book" (Json.obj []) with
  | .error e => ([], some e)
  | .ok ob =>
  match valueJson ob "bids" (Json.arr []) with
  | .error e => ([], some e)
  | .ok bids =>
  match valueJson ob "asks" (Json.arr []) with
  | .error e => ([], some e)
  | .ok asks =>
  let summary := Out.obSummary bids.jsize asks.jsize
  if bids.jempty || asks.jempty then ([summary], none)
  else
    match bids.atIdx 0 with
    | .error e => ([summary], some e)
    | .ok bb =>
    match asks.atIdx 0 with
    | .error e => ([summary], some e)
    | .ok ba =>
    match valueStr bb "size" "0" with
    | .error e => ([summary], some e)
    | .ok bbSize =>
    match valueStr bb "price" "0" with
    | .error e => ([summary], some e)
    | .ok bbPrice =>
    match valueStr ba "size" "0" with
    | .error e => ([summary], some e)
    | .ok baSize =>
    match valueStr ba "price" "0" with
    | .error e => ([summary], some e)
    | .ok baPrice => ([summary, Out.obBest bbSize bbPrice baSize baPrice], none)

/-- handle_orderbook_update embeds `LighterWebSocket::handle_orderbook_update`:
prints only the update summary with the two counts. -/
def handle_orderbook_update (j : Json) : List Out × Option JErr :=
  match valueJson j "order_book" (Json.obj []) with
  | .error e => ([], some e)
  | .ok ob =>
  match valueJson ob "bids" (Json.arr []) with
  | .error e => ([], some e)
  | .ok bids =>
  match valueJson ob "asks" (Json.arr []) with
  | .error e => ([], some e)
  | .ok asks => ([Out.obUpdateSummary bids.jsize asks.jsize], none)

/-- handle_market_stats embeds `LighterWebSocket::handle_market_stats`: one
line with `last_price` / `mark_price` / `volume_24h`, each defaulting to
"N/A", evaluated left to right. -/
def handle_market_stats (j : Json) : List Out × Option JErr :=
  match valueJson j "data" (Json.obj []) with
  | .error e => ([], some e)
  | .ok data =>
  match valueStr data "last_price" "N/A" with
  | .error e => ([], some e)
  | .ok last =>
  match valueStr data "mark_price" "N/A" with
  | .error e => ([], some e)
  | .ok mark =>
  match valueStr data "volume_24h" "N/A" with
  | .error e => ([], some e)
  | .ok vol => ([Out.marketStats last mark vol], none)

/-- handle_error embeds the `type == "error"` branch of
`LighterWebSocket::handle_message`. -/
def handle_error (j : Json) : List Out × Option JErr :=
  match valueJson j "data" (Json.obj []) with
  | .error e => ([], some e)
  | .ok data =>
    match valueStr data "message" "Unknown error" with
    | .error e => ([], some e)
    | .ok m => ([Out.errorWarn m], none)

/-- dispatch embeds the body of `LighterWebSocket::handle_message` after a
successful parse: extract `type` and `channel`, then run the if-chain in
source order, ending with the "Unknown message type" diagnostic that is
printed only for a non-empty unrecognized `type`. -/
def dispatch (j : Json) : List Out × Option JErr :=
  match valueStr j "type" "" with
  | .error e => ([], some e)
  | .ok ty =>
  match valueStr j "channel" "" with
  | .error e => ([], some e)
  | .ok channel =>
  if ty = "connected" then ([Out.info "Received connected message"], none)
  else if ty = "ping" then ([Out.frame pongFrame], none)
  else if ty = "subscribed/order_book" ∨ strHasPrefix "order_book" channel then handle_orderbook j
  else if ty = "update/order_book" then handle_orderbook_update j
  else if ty = "subscribed/trade" ∨ ty = "update/trade" then handle_trade j
  else if ty = "subscribed/market_stats" ∨ ty = "update/market_stats" then handle_market_stats j
  else if ty = "error" then handle_error j
  else if ty ≠ "" then ([Out.unknownType ty], none)
  else ([], none)

/-- handle_message embeds `LighterWebSocket::handle_message` including its
`catch (const json::exception&)` block. -/
def handle_message : Frame → List Out
  | .malformed => [Out.parseError]
  | .ok j =>
    match dispatch j with
    | (os, none) => os
    | (os, some _) => os ++ [Out.parseError]

/-- run embeds the read loop of `LighterWebSocket::run` over the frames the
transport delivers. -/
def run : List Frame → List Out
  | [] => []
  | f :: fs => handle_message f ++ run fs

/-- subscribe_orderbook_channel is the channel string built by
`LighterWebSocket::subscribe_orderbook`: `"order_book/" + std::to_string(i)`. -/
def subscribe_orderbook_channel (marketIndex : Int) : String :=
  "order_book/" ++ toString marketIndex

/-- mainMarketIndex embeds the market-index selection in `main` of
websocket_example.cpp: `int market_index = 0;` is never reassigned and `argv`
is never read. -/
def mainMarketIndex (_argv : List String) : Int := 0

/-- mainChannel is the channel `main` subscribes to:
`subscribe_orderbook(market_index)` with the hard-coded index. -/
def mainChannel (argv : List String) : String :=
  subscribe_orderbook_channel (mainMarketIndex argv)

end WebSocketExample

/-- WsState abstracts the WebSocket stream for the `close()` model: only
whether a close frame can still be sent successfully. -/
structure WsState where
  canClose : Bool
deriving DecidableEq, Repr

/-- wsCloseFrame models `ws_.close(websocket::close_code::normal)`: it succeeds
and tears the session down when a close frame can still be sent, and throws a
`beast::system_error` otherwise (for instance on a second close). -/
def wsCloseFrame (s : WsState) : Except String WsState :=
  if s.canClose then .ok ⟨false⟩ else .error "stream closed"

/-- close embeds `TradeStreamClient::close` and `LighterWebSocket::close`
(textually identical): the `catch (...)` swallows every error from
`ws_.close`, so the caller observes no exception; the Bool records whether an
exception propagated to the caller. -/
def close (s : WsState) : WsState × Bool :=
  match wsCloseFrame s with
  | .ok s2 => (s2, false)
  | .error _ => (s, false)

/-- isTradeLine recognizes the `Out` action of one printed trade line. -/
def isTradeLine : Out → Bool
  | .tradeLine _ _ _ => true
  | _ => false

/-- tradeLinesOf keeps exactly the trade lines of an output list. -/
def tradeLinesOf (os : List Out) : List Out := os.filter isTradeLine

/-- strFieldD is the string a successful `value(key, dflt)` extraction yields
(the error case is irrelevant under the success hypotheses it is used with). -/
def strFieldD (t : Json) (key dflt : String) : String :=
  match valueStr t key dflt with
  | .ok s => s
  | .error _ => dflt

/-- mkTradeLine is the trade line both programs print for a trade record whose
field extractions succeed. -/
def mkTradeLine (t : Json) : Out :=
  Out.tradeLine (strFieldD t "side" "unknown") (strFieldD t "price" "0")
    (strFieldD t "size" "0")

/-- ts_print_trade_ok: when no extraction throws, `print_trade` prints exactly
the line `mkTradeLine t`. -/
theorem ts_print_trade_ok (t : Json) (h : (TradeStream.print_trade t).2 = none) :
    TradeStream.print_trade t = ([mkTradeLine t], none) := by
  unfold TradeStream.print_trade at h ⊢
  unfold mkTradeLine strFieldD
  cases h1 : valueStr t "side" "unknown" with
  | error e => simp_all
  | ok side =>
    cases h2 : valueStr t "price" "0" with
    | error e => simp_all
    | ok price =>
      cases h3 : valueStr t "size" "0" with
      | error e => simp_all
      | ok size => simp_all

/-- ws_printOneTrade_ok: the websocket example prints the same line as the
trade-stream example for a trade record whose extractions succeed (only the
evaluation order of the three extractions differs). -/
theorem ws_printOneTrade_ok (t : Json) (h : (TradeStream.print_trade t).2 = none) :
    WebSocketExample.printOneTrade t = ([mkTradeLine t], none) := by
  unfold TradeStream.print_trade at h
  unfold WebSocketExample.printOneTrade mkTradeLine strFieldD
  cases h1 : valueStr t "side" "unknown" with
  | error e => simp_all
  | ok side =>
    cases h2 : valueStr t "price" "0" with
    | error e => simp_all
    | ok price =>
      cases h3 : valueStr t "size" "0" with
      | error e => simp_all
      | ok size => simp_all

/-- ts_printTrades_ok: when every element prints without a throw, the
trade-stream loop prints one line per element in input order. -/
theorem ts_printTrades_ok (ts : List Json)
    (h : ∀ t ∈ ts, (TradeStream.print_trade t).2 = none) :
    TradeStream.printTrades ts = (ts.map mkTradeLine, none) := by
  induction ts with
  | nil => rfl
  | cons t rest ih =>
    have ht : (TradeStream.print_trade t).2 = none := h t (List.mem_cons_self t rest)
    have hrest : ∀ x ∈ rest, (TradeStream.print_trade x).2 = none :=
      fun x hx => h x (List.mem_cons_of_mem t hx)
    unfold TradeStream.printTrades
    rw [ts_print_trade_ok t ht, ih hrest]
    simp

/-- ws_printTrades_ok: when every element prints without a throw, the
websocket loop prints one line per element in input order. -/
theorem ws_printTrades_ok (ts : List Json)
    (h : ∀ t ∈ ts, (TradeStream.print_trade t).2 = none) :
    WebSocketExample.printTrades ts = (ts.map mkTradeLine, none) := by
  induction ts with
  | nil => rfl
  | cons t rest ih =>
    have ht : (TradeStream.print_trade t).2 = none := h t (List.mem_cons_self t rest)
    have hrest : ∀ x ∈ rest, (TradeStream.print_trade x).2 = none :=
      fun x hx => h x (List.mem_cons_of_mem t hx)
    unfold WebSocketExample.printTrades
    rw [ws_printOneTrade_ok t ht, ih hrest]
    simp

/-- tradeLinesOf_map_mk: a list made only of trade lines is kept whole by the
trade-line filter. -/
theorem tradeLinesOf_map_mk (ts : List Json) :
    tradeLinesOf (ts.map mkTradeLine) = ts.map mkTradeLine := by
  unfold tradeLinesOf
  rw [List.filter_eq_self]
  intro o ho
  obtain ⟨t, _, rfl⟩ := List.mem_map.mp ho
  rfl

/-- C4 (amended): for every inbound frame parsing to a JSON object whose
`type` is "ping" and whose `channel` field, when present, is a string, both
handlers write exactly one pong frame, take no other action for the frame,
and the read loop then continues with the next frame. -/
theorem claim4_ping_pong (j : Json) (c : String)
    (hty : valueStr j "type" "" = .ok "ping")
    (hch : valueStr j "channel" "" = .ok c)
    (rest : List Frame) :
    TradeStream.handle_message (.ok j) = [Out.frame pongFrame] ∧
    WebSocketExample.handle_message (.ok j) = [Out.frame pongFrame] ∧
    TradeStream.run (.ok j :: rest) = Out.frame pongFrame :: TradeStream.run rest ∧
    WebSocketExample.run (.ok j :: rest) = Out.frame pongFrame :: WebSocketExample.run rest := by
  have h1 : TradeStream.dispatch j = ([Out.frame pongFrame], none) := by
    unfold TradeStream.dispatch
    rw [hty, hch]
    simp
  have h2 : WebSocketExample.dispatch j = ([Out.frame pongFrame], none) := by
    unfold WebSocketExample.dispatch
    rw [hty, hch]
    simp
  have h3 : TradeStream.handle_message (.ok j) = [Out.frame pongFrame] := by
    simp only [TradeStream.handle_message, h1]
  have h4 : WebSocketExample.handle_message (.ok j) = [Out.frame pongFrame] := by
    simp only [WebSocketExample.handle_message, h2]
  refine ⟨h3, h4, ?_, ?_⟩
  · simp [TradeStream.run, h3]
  · simp [WebSocketExample.run, h4]

/-- C4 witness: the frame `{"type":"ping"}` makes both handlers emit exactly
the pong frame. -/
theorem claim4_ping_pong_wit :
    TradeStream.handle_message (.ok (.obj [("type", .str "ping")])) = [Out.frame pongFrame] ∧
    WebSocketExample.handle_message (.ok (.obj [("type", .str "ping")])) = [Out.frame pongFrame] :=
  ⟨(claim4_ping_pong (.obj [("type", .str "ping")]) "" rfl rfl []).1,
   (claim4_ping_pong (.obj [("type", .str "ping")]) "" rfl rfl []).2.1⟩

/-- C4 counterexample: the frame `{"type":"ping","channel":1}` parses to a
JSON object with `type` equal to "ping", yet the trade-stream handler writes
no pong frame: extracting `channel` throws `type_error` before the ping branch
is reached, and the handler only logs the JSON error. -/
theorem claim4_cex :
    TradeStream.handle_message (.ok (.obj [("type", .str "ping"), ("channel", .num 1)]))
      = [Out.parseError] := by rfl

/-- ts_run_append: the trade-stream read loop handles a concatenation of
delivered frames frame by frame. -/
theorem ts_run_append (a b : List Frame) :
    TradeStream.run (a ++ b) = TradeStream.run a ++ TradeStream.run b := by
  induction a with
  | nil => rfl
  | cons f fs ih => simp [TradeStream.run, ih]

/-- ws_run_append: the websocket read loop handles a concatenation of
delivered frames frame by frame. -/
theorem ws_run_append (a b : List Frame) :
    WebSocketExample.run (a ++ b) = WebSocketExample.run a ++ WebSocketExample.run b := by
  induction a with
  | nil => rfl
  | cons f fs ih => simp [WebSocketExample.run, ih]

/-- C5: every json error of a frame is absorbed inside the per-frame handler
and both read loops keep processing every frame delivered after it.  This
covers both error classes of the claim: a payload that is not valid JSON
(`Frame.malformed`, where `json::parse` throws) produces exactly the logged
"JSON parse error" diagnostic; and a valid-JSON frame whose field accesses
throw a `type_error` during dispatch (the dispatch result carries `some e`)
has that error caught by the same handler, which keeps the output produced
before the throw, appends the same diagnostic line, and returns normally.
In both cases the surrounding frames are processed unchanged. -/
theorem claim5_parse_error_isolation (pre post : List Frame) :
    (TradeStream.run (pre ++ Frame.malformed :: post)
        = TradeStream.run pre ++ Out.parseError :: TradeStream.run post) ∧
    (WebSocketExample.run (pre ++ Frame.malformed :: post)
        = WebSocketExample.run pre ++ Out.parseError :: WebSocketExample.run post) ∧
    (∀ j os e, TradeStream.dispatch j = (os, some e) →
      TradeStream.handle_message (.ok j) = os ++ [Out.parseError] ∧
      TradeStream.run (pre ++ Frame.ok j :: post)
        = TradeStream.run pre ++ (os ++ [Out.parseError]) ++ TradeStream.run post) ∧
    (∀ j os e, WebSocketExample.dispatch j = (os, some e) →
      WebSocketExample.handle_message (.ok j) = os ++ [Out.parseError] ∧
      WebSocketExample.run (pre ++ Frame.ok j :: post)
        = WebSocketExample.run pre ++ (os ++ [Out.parseError]) ++ WebSocketExample.run post) := by
  refine ⟨?_, ?_, ?_, ?_⟩
  · rw [ts_run_append]
    simp [TradeStream.run, TradeStream.handle_message]
  · rw [ws_run_append]
    simp [WebSocketExample.run, WebSocketExample.handle_message]
  · intro j os e hd
    have m : TradeStream.handle_message (.ok j) = os ++ [Out.parseError] := by
      simp only [TradeStream.handle_message, hd]
    refine ⟨m, ?_⟩
    rw [ts_run_append]
    simp [TradeStream.run, m]
  · intro j os e hd
    have m : WebSocketExample.handle_message (.ok j) = os ++ [Out.parseError] := by
      simp only [WebSocketExample.handle_message, hd]
    refine ⟨m, ?_⟩
    rw [ws_run_append]
    simp [WebSocketExample.run, m]

/-- C5 witness: a malformed frame and the valid-JSON frame
`{"type":"ping","channel":1}` (whose `channel` extraction throws
`type_error`) are each logged as one diagnostic, handled without raising, and
followed by normal processing of the next frame. -/
theorem claim5_parse_error_isolation_wit :
    TradeStream.run [Frame.malformed,
        Frame.ok (.obj [("type", .str "connected")])]
      = [Out.parseError, Out.info "Received connected message"] ∧
    TradeStream.handle_message (.ok (.obj [("type", .str "ping"), ("channel", .num 1)]))
      = [Out.parseError] ∧
    WebSocketExample.run [Frame.ok (.obj [("type", .str "ping"), ("channel", .num 1)]),
        Frame.ok (.obj [("type", .str "connected")])]
      = [Out.parseError, Out.info "Received connected message"] := by
  have h1 := (claim5_parse_error_isolation []
    [Frame.ok (.obj [("type", .str "connected")])]).1
  have h2 := ((claim5_parse_error_isolation [] []).2.2.1
    (.obj [("type", .str "ping"), ("channel", .num 1)]) [] .typeErr rfl).1
  have h3 := ((claim5_parse_error_isolation []
    [Frame.ok (.obj [("type", .str "connected")])]).2.2.2
    (.obj [("type", .str "ping"), ("channel", .num 1)]) [] .typeErr rfl).2
  exact ⟨h1, h2, h3⟩

/-- C8: `close()` never raises in any client state — the error from sending a
close frame on an already torn-down stream is swallowed — and a second call
after a first one is a no-op that also does not raise. -/
theorem claim8_close_idempotent (s : WsState) :
    (close s).2 = false ∧ (close (close s).1).2 = false ∧
      (close (close s).1).1 = (close s).1 := by
  obtain ⟨b⟩ := s
  cases b <;> simp [close, wsCloseFrame]

/-- C9 counterexample: invoked with positional argument "5", the trade-stream
program still subscribes to channel "trade/0", not "trade/5": `main` never
reads `argv`. -/
theorem claim9_cex :
    TradeStream.mainChannel ["./trade_stream", "5"] = "trade/0" ∧
      TradeStream.mainChannel ["./trade_stream", "5"] ≠ "trade/5" := by
  exact ⟨rfl, by decide⟩

/-- C9 (amended): the market index is hard-coded to 0 in both programs;
command-line arguments do not influence the subscription, so the subscribed
channel is always "trade/0" (trade_stream) resp. "order_book/0"
(websocket_example). -/
theorem claim9_hardcoded_index (argv : List String) :
    TradeStream.mainChannel argv = "trade/0" ∧
      WebSocketExample.mainChannel argv = "order_book/0" :=
  ⟨rfl, rfl⟩

/-- C10: the printing functions are total over missing payload fields — an
absent `side` prints as "unknown", absent `price`/`size` print as "0", absent
market-stats fields print as "N/A", and no exception escapes for a JSON object
lacking these fields. -/
theorem claim10_print_defaults (fs ds : List (String × Json))
    (h1 : getField fs "side" = none) (h2 : getField fs "price" = none)
    (h3 : getField fs "size" = none)
    (h4 : getField ds "last_price" = none) (h5 : getField ds "mark_price" = none)
    (h6 : getField ds "volume_24h" = none) :
    TradeStream.print_trade (.obj fs) = ([Out.tradeLine "unknown" "0" "0"], none) ∧
    WebSocketExample.printOneTrade (.obj fs) = ([Out.tradeLine "unknown" "0" "0"], none) ∧
    WebSocketExample.handle_market_stats (.obj [("data", .obj ds)])
      = ([Out.marketStats "N/A" "N/A" "N/A"], none) := by
  refine ⟨?_, ?_, ?_⟩ <;>
    simp [TradeStream.print_trade, WebSocketExample.printOneTrade,
      WebSocketExample.handle_market_stats, valueStr, valueJson, getField,
      h1, h2, h3, h4, h5, h6]

/-- C10 witness: empty trade and market-stats records print all defaults and
raise nothing. -/
theorem claim10_print_defaults_wit :
    TradeStream.print_trade (.obj []) = ([Out.tradeLine "unknown" "0" "0"], none) ∧
    WebSocketExample.printOneTrade (.obj []) = ([Out.tradeLine "unknown" "0" "0"], none) ∧
    WebSocketExample.handle_market_stats (.obj [("data", .obj [])])
      = ([Out.marketStats "N/A" "N/A" "N/A"], none) :=
  claim10_print_defaults [] [] rfl rfl rfl rfl rfl rfl

/-- C2 counterexample: the frame `{"type":"bogus"}` has an unrecognized type
and no channel, yet the trade-stream handler emits no output at all — in
particular it does not log the type string for diagnostics (its if-chain
simply falls through). -/
theorem claim2_cex :
    TradeStream.handle_message (.ok (.obj [("type", .str "bogus")])) = [] := by rfl

/-- C2 (amended): for a well-formed frame whose string `type` matches none of
the recognized types and whose `channel` (when present) is a string matching
no known topic prefix, both handlers return normally; the websocket example
logs the type string (when non-empty) for diagnostics, while the trade-stream
example emits no diagnostic at all; both loops continue. -/
theorem claim2_unknown_type (j : Json) (t c : String)
    (hty : valueStr j "type" "" = .ok t)
    (hch : valueStr j "channel" "" = .ok c)
    (hc1 : strHasPrefix "trade" c = false)
    (hc2 : strHasPrefix "order_book" c = false)
    (h0 : t ≠ "") (h1 : t ≠ "connected") (h2 : t ≠ "ping")
    (h3 : t ≠ "subscribed/order_book") (h4 : t ≠ "update/order_book")
    (h5 : t ≠ "subscribed/trade") (h6 : t ≠ "update/trade")
    (h7 : t ≠ "subscribed/market_stats") (h8 : t ≠ "update/market_stats")
    (h9 : t ≠ "error") (rest : List Frame) :
    TradeStream.handle_message (.ok j) = [] ∧
    WebSocketExample.handle_message (.ok j) = [Out.unknownType t] ∧
    TradeStream.run (.ok j :: rest) = TradeStream.run rest ∧
    WebSocketExample.run (.ok j :: rest)
      = Out.unknownType t :: WebSocketExample.run rest := by
  have d1 : TradeStream.dispatch j = ([], none) := by
    unfold TradeStream.dispatch
    rw [hty, hch]
    simp [h1, h2, h5, h6, h9, hc1]
  have d2 : WebSocketExample.dispatch j = ([Out.unknownType t], none) := by
    unfold WebSocketExample.dispatch
    rw [hty, hch]
    simp [h0, h1, h2, h3, h4, h5, h6, h7, h8, h9, hc1, hc2]
  have m1 : TradeStream.handle_message (.ok j) = [] := by
    simp only [TradeStream.handle_message, d1]
  have m2 : WebSocketExample.handle_message (.ok j) = [Out.unknownType t] := by
    simp only [WebSocketExample.handle_message, d2]
  refine ⟨m1, m2, ?_, ?_⟩
  · simp [TradeStream.run, m1]
  · simp [WebSocketExample.run, m2]

/-- C2 witness: the frame `{"type":"bogus"}` is handled without raising; the
websocket example logs the type string, the trade-stream example prints
nothing. -/
theorem claim2_unknown_type_wit :
    TradeStream.handle_message (.ok (.obj [("type", .str "bogus")])) = [] ∧
    WebSocketExample.handle_message (.ok (.obj [("type", .str "bogus")]))
      = [Out.unknownType "bogus"] := by
  have h := claim2_unknown_type (.obj [("type", .str "bogus")]) "bogus" "" rfl rfl
    rfl rfl (by decide) (by decide) (by decide) (by decide) (by decide)
    (by decide) (by decide) (by decide) (by decide) (by decide) []
  exact ⟨h.1, h.2.1⟩

/-- C7 counterexample: the message
`{"type":"error","channel":"trade/0","data":{"message":"rate limited"}}` has
type "error", yet the trade-stream handler logs no warning at all: the
channel-prefix branch routes it to the trade-snapshot handler, which prints
nothing because `data` is not an array. -/
theorem claim7_cex :
    TradeStream.handle_message (.ok (.obj
      [("type", .str "error"), ("channel", .str "trade/0"),
       ("data", .obj [("message", .str "rate limited")])])) = [] := by rfl

/-- C7 (amended): for every message with `type` "error" whose `channel`, when
present, is a string not beginning with a subscribed topic prefix ("trade" /
"order_book"), and whose `data` is absent or an object whose `message` is
absent or a string, both handlers log `data.message` (default "Unknown error")
as a non-fatal warning and the read loop continues with the connection open. -/
theorem claim7_error_warning (j d : Json) (c m : String)
    (hty : valueStr j "type" "" = .ok "error")
    (hch : valueStr j "channel" "" = .ok c)
    (hc1 : strHasPrefix "trade" c = false)
    (hc2 : strHasPrefix "order_book" c = false)
    (hd : valueJson j "data" (Json.obj []) = .ok d)
    (hm : valueStr d "message" "Unknown error" = .ok m)
    (rest : List Frame) :
    TradeStream.handle_message (.ok j) = [Out.errorWarn m] ∧
    WebSocketExample.handle_message (.ok j) = [Out.errorWarn m] ∧
    TradeStream.run (.ok j :: rest) = Out.errorWarn m :: TradeStream.run rest ∧
    WebSocketExample.run (.ok j :: rest) = Out.errorWarn m :: WebSocketExample.run rest := by
  have e1 : TradeStream.handle_error j = ([Out.errorWarn m], none) := by
    unfold TradeStream.handle_error
    rw [hd]
    simp [hm]
  have e2 : WebSocketExample.handle_error j = ([Out.errorWarn m], none) := by
    unfold WebSocketExample.handle_error
    rw [hd]
    simp [hm]
  have d1 : TradeStream.dispatch j = ([Out.errorWarn m], none) := by
    unfold TradeStream.dispatch
    rw [hty, hch]
    simp [hc1, e1]
  have d2 : WebSocketExample.dispatch j = ([Out.errorWarn m], none) := by
    unfold WebSocketExample.dispatch
    rw [hty, hch]
    simp [hc1, hc2, e2]
  have m1 : TradeStream.handle_message (.ok j) = [Out.errorWarn m] := by
    simp only [TradeStream.handle_message, d1]
  have m2 : WebSocketExample.handle_message (.ok j) = [Out.errorWarn m] := by
    simp only [WebSocketExample.handle_message, d2]
  refine ⟨m1, m2, ?_, ?_⟩
  · simp [TradeStream.run, m1]
  · simp [WebSocketExample.run, m2]

/-- C7 witness: the scenario frame
`{"type":"error","data":{"message":"rate limited"}}` makes both handlers log a
warning carrying "rate limited". -/
theorem claim7_error_warning_wit :
    TradeStream.handle_message (.ok (.obj
      [("type", .str "error"), ("data", .obj [("message", .str "rate limited")])]))
      = [Out.errorWarn "rate limited"] ∧
    WebSocketExample.handle_message (.ok (.obj
      [("type", .str "error"), ("data", .obj [("message", .str "rate limited")])]))
      = [Out.errorWarn "rate limited"] := by
  have h := claim7_error_warning
    (.obj [("type", .str "error"), ("data", .obj [("message", .str "rate limited")])])
    (.obj [("message", .str "rate limited")]) "" "rate limited"
    rfl rfl rfl rfl rfl rfl []
  exact ⟨h.1, h.2.1⟩

/-- ws_handle_orderbook_summary_head: under well-typed `order_book`, `bids`,
`asks` extractions, the order-book snapshot handler always prints the summary
with both counts first, whatever happens afterwards. -/
theorem ws_handle_orderbook_summary_head (j ob : Json) (bs asl : List Json)
    (hob : valueJson j "order_book" (Json.obj []) = .ok ob)
    (hbids : valueJson ob "bids" (Json.arr []) = .ok (Json.arr bs))
    (hasks : valueJson ob "asks" (Json.arr []) = .ok (Json.arr asl)) :
    ∃ tail e, WebSocketExample.handle_orderbook j
      = (Out.obSummary bs.length asl.length :: tail, e) := by
  unfold WebSocketExample.handle_orderbook
  rw [hob]
  simp only [hbids, hasks, Json.jsize, Json.jempty]
  repeat' split
  all_goals exact ⟨_, _, rfl⟩

/-- C6 counterexample: an order-book snapshot with one bid and one ask whose
first elements are not objects prints the summary but no best-bid/best-ask
line — the `value` extraction on the first bid throws and only a JSON error
is logged after the summary. -/
theorem claim6_cex :
    WebSocketExample.handle_message (.ok (.obj
      [("type", .str "subscribed/order_book"),
       ("order_book", .obj [("bids", .arr [.num 5]), ("asks", .arr [.str "x"])])]))
      = [Out.obSummary 1 1, Out.parseError] := by rfl

/-- C6 (amended): for every order-book snapshot message (type
"subscribed/order_book", string-or-absent channel) whose `order_book` payload
yields N bids and M asks, the first printed line is the snapshot summary
reporting N and M; and whenever N>0, M>0 and the first bid and ask are objects
whose `price`/`size` fields, when present, are strings, the handler prints
exactly the summary followed by the best-bid/best-ask line built from those
first elements. -/
theorem claim6_orderbook_snapshot (j ob : Json) (c : String) (bs asl : List Json)
    (hty : valueStr j "type" "" = .ok "subscribed/order_book")
    (hch : valueStr j "channel" "" = .ok c)
    (hob : valueJson j "order_book" (Json.obj []) = .ok ob)
    (hbids : valueJson ob "bids" (Json.arr []) = .ok (Json.arr bs))
    (hasks : valueJson ob "asks" (Json.arr []) = .ok (Json.arr asl)) :
    (WebSocketExample.handle_message (.ok j)).head?
        = some (Out.obSummary bs.length asl.length) ∧
    (∀ b0 bt a0 at2 u1 u2 u3 u4, bs = b0 :: bt → asl = a0 :: at2 →
      valueStr b0 "size" "0" = .ok u1 → valueStr b0 "price" "0" = .ok u2 →
      valueStr a0 "size" "0" = .ok u3 → valueStr a0 "price" "0" = .ok u4 →
      WebSocketExample.handle_message (.ok j)
        = [Out.obSummary bs.length asl.length, Out.obBest u1 u2 u3 u4]) := by
  have dde : WebSocketExample.dispatch j = WebSocketExample.handle_orderbook j := by
    unfold WebSocketExample.dispatch
    rw [hty, hch]
    simp
  constructor
  · obtain ⟨tail, e, hh⟩ := ws_handle_orderbook_summary_head j ob bs asl hob hbids hasks
    cases e with
    | none => simp [WebSocketExample.handle_message, dde, hh]
    | some er => simp [WebSocketExample.handle_message, dde, hh]
  · intro b0 bt a0 at2 u1 u2 u3 u4 hbs has hs1 hs2 hs3 hs4
    subst hbs; subst has
    have hob2 : WebSocketExample.handle_orderbook j
        = ([Out.obSummary (b0 :: bt).length (a0 :: at2).length,
            Out.obBest u1 u2 u3 u4], none) := by
      unfold WebSocketExample.handle_orderbook
      rw [hob]
      simp [hbids, hasks, Json.jempty, Json.jsize, Json.atIdx, hs1, hs2, hs3, hs4]
    simp only [WebSocketExample.handle_message, dde, hob2]

/-- C6 witness: a snapshot with one well-typed bid and ask prints the summary
(counts 1 and 1) followed by the best-bid/best-ask line. -/
theorem claim6_orderbook_snapshot_wit :
    (WebSocketExample.handle_message (.ok (.obj
      [("type", .str "subscribed/order_book"),
       ("order_book", .obj
         [("bids", .arr [.obj [("price", .str "100"), ("size", .str "2")]]),
          ("asks", .arr [.obj [("price", .str "101"), ("size", .str "3")]])])]))).head?
      = some (Out.obSummary 1 1) ∧
    WebSocketExample.handle_message (.ok (.obj
      [("type", .str "subscribed/order_book"),
       ("order_book", .obj
         [("bids", .arr [.obj [("price", .str "100"), ("size", .str "2")]]),
          ("asks", .arr [.obj [("price", .str "101"), ("size", .str "3")]])])]))
      = [Out.obSummary 1 1, Out.obBest "2" "100" "3" "101"] := by
  have h := claim6_orderbook_snapshot
    (.obj [("type", .str "subscribed/order_book"),
       ("order_book", .obj
         [("bids", .arr [.obj [("price", .str "100"), ("size", .str "2")]]),
          ("asks", .arr [.obj [("price", .str "101"), ("size", .str "3")]])])])
    (.obj [("bids", .arr [.obj [("price", .str "100"), ("size", .str "2")]]),
           ("asks", .arr [.obj [("price", .str "101"), ("size", .str "3")]])])
    "" [.obj [("price", .str "100"), ("size", .str "2")]]
    [.obj [("price", .str "101"), ("size", .str "3")]]
    rfl rfl rfl rfl rfl
  exact ⟨h.1, h.2 _ [] _ [] "2" "100" "3" "101" rfl rfl rfl rfl rfl rfl⟩

/-- tradeLinesOf_cons_skip: a non-trade-line output is dropped by the
trade-line filter. -/
theorem tradeLinesOf_cons_skip (o : Out) (l : List Out) (h : isTradeLine o = false) :
    tradeLinesOf (o :: l) = tradeLinesOf l := by
  simp [tradeLinesOf, List.filter_cons, h]

/-- C1 counterexample: the message
`{"type":"update/trade","channel":"order_book/0","data":[{...one trade...}]}`
has type "update/trade" and a `data` array of length 1, yet the websocket
handler emits zero trade lines: the channel-prefix branch routes the message
to the order-book handler, which prints an empty order-book summary. -/
theorem claim1_cex :
    WebSocketExample.handle_message (.ok (.obj
      [("type", .str "update/trade"), ("channel", .str "order_book/0"),
       ("data", .arr [.obj [("side", .str "buy"), ("price", .str "2000.5"),
                            ("size", .str "1.2")]])]))
      = [Out.obSummary 0 0] := by rfl

/-- C1 (amended): for every "update/trade" message whose `data` is an array of
length K, whose `channel` (when present) is a string not beginning with
"order_book", and whose array elements print without a JSON type error (their
`side`/`price`/`size` fields, when present, are strings), both handlers emit
exactly K trade lines, one per array element, in input order — in the
trade-stream client this holds for any string channel, including "trade"-
prefixed ones that reroute to the snapshot handler. -/
theorem claim1_update_trade_lines (j : Json) (c : String) (ts : List Json)
    (hty : valueStr j "type" "" = .ok "update/trade")
    (hch : valueStr j "channel" "" = .ok c)
    (hc : strHasPrefix "order_book" c = false)
    (hdata : valueJson j "data" (Json.obj []) = .ok (Json.arr ts))
    (hok : ∀ t ∈ ts, (TradeStream.print_trade t).2 = none) :
    tradeLinesOf (TradeStream.handle_message (.ok j)) = ts.map mkTradeLine ∧
    WebSocketExample.handle_message (.ok j) = ts.map mkTradeLine ∧
    (ts.map mkTradeLine).length = ts.length := by
  have hpt := ts_printTrades_ok ts hok
  have hpw := ws_printTrades_ok ts hok
  have hsnap : TradeStream.handle_trade_snapshot j
      = (Out.tradeSnapshotSummary ts.length :: Out.tradeHeader :: ts.map mkTradeLine, none) := by
    unfold TradeStream.handle_trade_snapshot
    rw [hdata]
    simp [hpt]
  have hupd : TradeStream.handle_trade_update j = (ts.map mkTradeLine, none) := by
    unfold TradeStream.handle_trade_update
    rw [hdata]
    simp [hpt]
  have hTS : tradeLinesOf (TradeStream.handle_message (.ok j)) = ts.map mkTradeLine := by
    by_cases hp : strHasPrefix "trade" c = true
    · have d1 : TradeStream.dispatch j
          = (Out.tradeSnapshotSummary ts.length :: Out.tradeHeader :: ts.map mkTradeLine, none) := by
        unfold TradeStream.dispatch
        rw [hty, hch]
        simp [hp, hsnap]
      have m1 : TradeStream.handle_message (.ok j)
          = Out.tradeSnapshotSummary ts.length :: Out.tradeHeader :: ts.map mkTradeLine := by
        simp only [TradeStream.handle_message, d1]
      rw [m1, tradeLinesOf_cons_skip (Out.tradeSnapshotSummary ts.length) _ rfl,
        tradeLinesOf_cons_skip Out.tradeHeader _ rfl, tradeLinesOf_map_mk]
    · have d1 : TradeStream.dispatch j = (ts.map mkTradeLine, none) := by
        unfold TradeStream.dispatch
        rw [hty, hch]
        simp [hp, hupd]
      have m1 : TradeStream.handle_message (.ok j) = ts.map mkTradeLine := by
        simp only [TradeStream.handle_message, d1]
      rw [m1, tradeLinesOf_map_mk]
  have hWSt : WebSocketExample.handle_trade j = (ts.map mkTradeLine, none) := by
    unfold WebSocketExample.handle_trade
    rw [hdata]
    simp [hpw]
  have d2 : WebSocketExample.dispatch j = (ts.map mkTradeLine, none) := by
    unfold WebSocketExample.dispatch
    rw [hty, hch]
    simp [hc, hWSt]
  have m2 : WebSocketExample.handle_message (.ok j) = ts.map mkTradeLine := by
    simp only [WebSocketExample.handle_message, d2]
  exact ⟨hTS, m2, List.length_map _ _⟩

/-- C1 witness: the two-trade update
`{"type":"update/trade","data":[{buy 2000.5 1.2},{sell 2001.0 0.5}]}` makes
both handlers print exactly two trade lines in input order. -/
theorem claim1_update_trade_lines_wit :
    tradeLinesOf (TradeStream.handle_message (.ok (.obj
      [("type", .str "update/trade"),
       ("data", .arr [.obj [("side", .str "buy"), ("price", .str "2000.5"), ("size", .str "1.2")],
                      .obj [("side", .str "sell"), ("price", .str "2001.0"), ("size", .str "0.5")]])])))
      = [Out.tradeLine "buy" "2000.5" "1.2", Out.tradeLine "sell" "2001.0" "0.5"] ∧
    WebSocketExample.handle_message (.ok (.obj
      [("type", .str "update/trade"),
       ("data", .arr [.obj [("side", .str "buy"), ("price", .str "2000.5"), ("size", .str "1.2")],
                      .obj [("side", .str "sell"), ("price", .str "2001.0"), ("size", .str "0.5")]])]))
      = [Out.tradeLine "buy" "2000.5" "1.2", Out.tradeLine "sell" "2001.0" "0.5"] := by
  have h := claim1_update_trade_lines
    (.obj [("type", .str "update/trade"),
       ("data", .arr [.obj [("side", .str "buy"), ("price", .str "2000.5"), ("size", .str "1.2")],
                      .obj [("side", .str "sell"), ("price", .str "2001.0"), ("size", .str "0.5")]])])
    ""
    [.obj [("side", .str "buy"), ("price", .str "2000.5"), ("size", .str "1.2")],
     .obj [("side", .str "sell"), ("price", .str "2001.0"), ("size", .str "0.5")]]
    rfl rfl rfl rfl (by decide)
  exact ⟨h.1, h.2.1⟩

/-- C3 counterexample: the snapshot message
`{"type":"subscribed/trade","data":{...one trade object...}}` carries its
single entry as an object, yet the trade-stream handler prints nothing: its
snapshot handler only handles array `data`. -/
theorem claim3_cex :
    TradeStream.handle_message (.ok (.obj
      [("type", .str "subscribed/trade"),
       ("data", .obj [("side", .str "buy"), ("price", .str "2000.5"), ("size", .str "1.2")])]))
      = [] := by rfl

/-- C3 (amended): for trade-snapshot messages (type "subscribed/trade",
string-or-absent channel without the "order_book" prefix) whose entries print
without JSON type errors: when `data` is an array both clients print all its
entries in order; when `data` is a single object the websocket client prints
that one entry but the trade-stream snapshot handler prints nothing. -/
theorem claim3_snapshot_entries (j : Json) (c : String)
    (hty : valueStr j "type" "" = .ok "subscribed/trade")
    (hch : valueStr j "channel" "" = .ok c)
    (hc : strHasPrefix "order_book" c = false) :
    (∀ ts, valueJson j "data" (Json.obj []) = .ok (Json.arr ts) →
      (∀ t ∈ ts, (TradeStream.print_trade t).2 = none) →
      tradeLinesOf (TradeStream.handle_message (.ok j)) = ts.map mkTradeLine ∧
      WebSocketExample.handle_message (.ok j) = ts.map mkTradeLine) ∧
    (∀ fs, valueJson j "data" (Json.obj []) = .ok (Json.obj fs) →
      (TradeStream.print_trade (Json.obj fs)).2 = none →
      TradeStream.handle_message (.ok j) = [] ∧
      WebSocketExample.handle_message (.ok j) = [mkTradeLine (Json.obj fs)]) := by
  have dTS : TradeStream.dispatch j = TradeStream.handle_trade_snapshot j := by
    unfold TradeStream.dispatch
    rw [hty, hch]
    simp
  have dWS : WebSocketExample.dispatch j = WebSocketExample.handle_trade j := by
    unfold WebSocketExample.dispatch
    rw [hty, hch]
    simp [hc]
  constructor
  · intro ts hdata hok
    have hpt := ts_printTrades_ok ts hok
    have hpw := ws_printTrades_ok ts hok
    have hsnap : TradeStream.handle_trade_snapshot j
        = (Out.tradeSnapshotSummary ts.length :: Out.tradeHeader :: ts.map mkTradeLine, none) := by
      unfold TradeStream.handle_trade_snapshot
      rw [hdata]
      simp [hpt]
    have m1 : TradeStream.handle_message (.ok j)
        = Out.tradeSnapshotSummary ts.length :: Out.tradeHeader :: ts.map mkTradeLine := by
      simp only [TradeStream.handle_message, dTS, hsnap]
    have hWSt : WebSocketExample.handle_trade j = (ts.map mkTradeLine, none) := by
      unfold WebSocketExample.handle_trade
      rw [hdata]
      simp [hpw]
    have m2 : WebSocketExample.handle_message (.ok j) = ts.map mkTradeLine := by
      simp only [WebSocketExample.handle_message, dWS, hWSt]
    refine ⟨?_, m2⟩
    rw [m1, tradeLinesOf_cons_skip (Out.tradeSnapshotSummary ts.length) _ rfl,
      tradeLinesOf_cons_skip Out.tradeHeader _ rfl, tradeLinesOf_map_mk]
  · intro fs hdata hok
    have hsnap : TradeStream.handle_trade_snapshot j = ([], none) := by
      unfold TradeStream.handle_trade_snapshot
      rw [hdata]
    have hWSt : WebSocketExample.handle_trade j = ([mkTradeLine (Json.obj fs)], none) := by
      unfold WebSocketExample.handle_trade
      rw [hdata]
      simp [ws_printOneTrade_ok (Json.obj fs) hok]
    constructor
    · simp only [TradeStream.handle_message, dTS, hsnap]
    · simp only [WebSocketExample.handle_message, dWS, hWSt]

/-- C3 witness: the scenario snapshot
`{"type":"subscribed/trade","data":[{buy 2000.5 1.2},{sell 2001.0 0.5}]}`
prints both entries in order in both clients. -/
theorem claim3_snapshot_entries_wit :
    tradeLinesOf (TradeStream.handle_message (.ok (.obj
      [("type", .str "subscribed/trade"),
       ("data", .arr [.obj [("side", .str "buy"), ("price", .str "2000.5"), ("size", .str "1.2")],
                      .obj [("side", .str "sell"), ("price", .str "2001.0"), ("size", .str "0.5")]])])))
      = [Out.tradeLine "buy" "2000.5" "1.2", Out.tradeLine "sell" "2001.0" "0.5"] ∧
    WebSocketExample.handle_message (.ok (.obj
      [("type", .str "subscribed/trade"),
       ("data", .arr [.obj [("side", .str "buy"), ("price", .str "2000.5"), ("size", .str "1.2")],
                      .obj [("side", .str "sell"), ("price", .str "2001.0"), ("size", .str "0.5")]])]))
      = [Out.tradeLine "buy" "2000.5" "1.2", Out.tradeLine "sell" "2001.0" "0.5"] := by
  have h := (claim3_snapshot_entries
    (.obj [("type", .str "subscribed/trade"),
       ("data", .arr [.obj [("side", .str "buy"), ("price", .str "2000.5"), ("size", .str "1.2")],
                      .obj [("side", .str "sell"), ("price", .str "2001.0"), ("size", .str "0.5")]])])
    "" rfl rfl rfl).1
    [.obj [("side", .str "buy"), ("price", .str "2000.5"), ("size", .str "1.2")],
     .obj [("side", .str "sell"), ("price", .str "2001.0"), ("size", .str "0.5")]]
    rfl (by decide)
  exact ⟨h.1, h.2⟩
